import Mathlib

/-
Shallow embedding of `src/main.rs` (flappy_bird_rust).

Modelling notes:
* All `f32` quantities of the game (positions, velocities, the physics
  constants) are modelled by `ℚ`.  Every value the game manipulates is a
  small dyadic rational (all constants are multiples of 1/2, positions stay
  far below 2^23), so `f32` arithmetic on them is exact and agrees with `ℚ`.
* `rand::thread_rng().gen_range(PIPE_MIN_GAP_Y..PIPE_MAX_GAP_Y)` in
  `Pipe::new` is modelled by an explicit oracle `ℕ → ℚ` together with a
  cursor (`rng` field of `GameState`) counting how many random draws have
  been made; each `Pipe::new` consumes one draw.
* The `ggez` engine (window, textures, canvas) is outside the model:
  `Image` fields and all `draw` methods are dropped, `&mut Context`
  parameters disappear, and the infallible remainder of each `GameResult`
  returning function is kept as a total function.
* Rust `Vec<Pipe>` becomes `List Pipe`; `Vec::retain` (which keeps order)
  becomes `List.filter`, `Vec::last` becomes `List.getLast?`,
  `Vec::push` appends on the right.
-/

namespace FlappyBird

/-- Physics constant `GRAVITY: f32 = 0.5`. -/
def GRAVITY : ℚ := 1/2

/-- Physics constant `JUMP_FORCE: f32 = -10.0`. -/
def JUMP_FORCE : ℚ := -10

/-- Physics constant `PIPE_SPEED: f32 = 5.0`. -/
def PIPE_SPEED : ℚ := 5

/-- Physics constant `PIPE_GAP: f32 = 150.0` (only used by `draw`). -/
def PIPE_GAP : ℚ := 150

/-- Screen dimension `SCREEN_WIDTH: f32 = 600.0`. -/
def SCREEN_WIDTH : ℚ := 600

/-- Screen dimension `SCREEN_HEIGHT: f32 = 400.0`. -/
def SCREEN_HEIGHT : ℚ := 400

/-- Bird constant `BIRD_START_X: f32 = 100.0`. -/
def BIRD_START_X : ℚ := 100

/-- Bird constant `BIRD_START_Y: f32 = SCREEN_HEIGHT / 2.0`. -/
def BIRD_START_Y : ℚ := SCREEN_HEIGHT / 2

/-- Pipe constant `INITIAL_PIPE_COUNT: usize = 3`. -/
def INITIAL_PIPE_COUNT : ℕ := 3

/-- Pipe constant `PIPE_SPACING: f32 = 300.0`. -/
def PIPE_SPACING : ℚ := 300

/-- Pipe constant `PIPE_SPAWN_DISTANCE: f32 = 300.0`. -/
def PIPE_SPAWN_DISTANCE : ℚ := 300

/-- Pipe constant `PIPE_OFF_SCREEN_X: f32 = -100.0`. -/
def PIPE_OFF_SCREEN_X : ℚ := -100

/-- Pipe constant `PIPE_MIN_GAP_Y: f32 = 100.0`. -/
def PIPE_MIN_GAP_Y : ℚ := 100

/-- Pipe constant `PIPE_MAX_GAP_Y: f32 = 300.0`. -/
def PIPE_MAX_GAP_Y : ℚ := 300

/-- Pipe constant `PIPE_TOP_OFFSET: f32 = 200.0`. -/
def PIPE_TOP_OFFSET : ℚ := 200

/-- The `GameStatus` enum of the source. -/
inductive GameStatus
  | Playing
  | GameOver
deriving DecidableEq

/-- The `Bird` struct of the source (the `image: Image` field, pure
rendering data, is dropped). -/
structure Bird where
  x : ℚ
  y : ℚ
  velocity : ℚ
deriving DecidableEq

/-- Constructor `Bird::new`: starts at `(BIRD_START_X, BIRD_START_Y)` with velocity 0
(the texture load is dropped). -/
def Bird.new : Bird :=
  { x := BIRD_START_X, y := BIRD_START_Y, velocity := 0 }

/-- Method `Bird::update`: `self.velocity += GRAVITY; self.y += self.velocity;`. -/
def Bird.update (b : Bird) : Bird :=
  let velocity := b.velocity + GRAVITY
  { b with velocity := velocity, y := b.y + velocity }

/-- Method `Bird::jump`: `self.velocity = JUMP_FORCE;`. -/
def Bird.jump (b : Bird) : Bird :=
  { b with velocity := JUMP_FORCE }

/-- Method `Bird::is_out_of_bounds`: `self.y < 0.0 || self.y > SCREEN_HEIGHT`. -/
def Bird.is_out_of_bounds (b : Bird) : Bool :=
  decide (b.y < 0) || decide (b.y > SCREEN_HEIGHT)

/-- The `Pipe` struct of the source (the `image: Image` field dropped). -/
structure Pipe where
  x : ℚ
  gap_y : ℚ
deriving DecidableEq

/-- Constructor `Pipe::new(ctx, x)`: the caller supplies `x`; `gap_y` is drawn from the
rng, modelled as reading the oracle at cursor position `k`. -/
def Pipe.new (oracle : ℕ → ℚ) (k : ℕ) (x : ℚ) : Pipe :=
  { x := x, gap_y := oracle k }

/-- Method `Pipe::update`: `self.x -= PIPE_SPEED;`. -/
def Pipe.update (p : Pipe) : Pipe :=
  { p with x := p.x - PIPE_SPEED }

/-- Method `Pipe::is_off_screen`: `self.x < PIPE_OFF_SCREEN_X`. -/
def Pipe.is_off_screen (p : Pipe) : Bool :=
  decide (p.x < PIPE_OFF_SCREEN_X)

/-- The `GameState` struct of the source (the `background: Image` field
dropped; the extra `rng` field is the oracle cursor of the randomness
model). -/
structure GameState where
  bird : Bird
  pipes : List Pipe
  score : ℤ
  status : GameStatus
  rng : ℕ
deriving DecidableEq

/-- Constructor `GameState::new`: fresh bird, `INITIAL_PIPE_COUNT` pipes at
`SCREEN_WIDTH + i * PIPE_SPACING`, score 0, status `Playing`.  `rng0` is
the oracle cursor on entry; each initial pipe consumes one draw. -/
def GameState.new (oracle : ℕ → ℚ) (rng0 : ℕ) : GameState :=
  { bird := Bird.new
    pipes := (List.range INITIAL_PIPE_COUNT).map
      (fun i => Pipe.new oracle (rng0 + i) (SCREEN_WIDTH + i * PIPE_SPACING))
    score := 0
    status := GameStatus.Playing
    rng := rng0 + INITIAL_PIPE_COUNT }

/-- The pipe list right after the movement and retain steps of the
`Playing` branch of `GameState::update`: every pipe advanced by
`Pipe::update`, then `retain(|pipe| !pipe.is_off_screen())`. -/
def GameState.survivors (s : GameState) : List Pipe :=
  (s.pipes.map Pipe.update).filter (fun p => ! p.is_off_screen)

/-- The `GameStatus::Playing` arm of `GameState::update`: advance the bird,
advance every pipe, retain the on-screen pipes, run the lookahead spawn
gate (`if let Some(last_pipe) ... if last_pipe.x < SCREEN_WIDTH -
PIPE_SPAWN_DISTANCE { push(Pipe::new(ctx, SCREEN_WIDTH + PIPE_TOP_OFFSET)) }`),
then set `GameOver` when the updated bird is out of bounds (the
`println!` side effect is dropped). -/
def GameState.updatePlaying (oracle : ℕ → ℚ) (s : GameState) : GameState :=
  let bird := s.bird.update
  let kept := s.survivors
  let spawn : Bool :=
    match kept.getLast? with
    | some last_pipe => decide (last_pipe.x < SCREEN_WIDTH - PIPE_SPAWN_DISTANCE)
    | none => false
  { bird := bird
    pipes :=
      if spawn then kept ++ [Pipe.new oracle s.rng (SCREEN_WIDTH + PIPE_TOP_OFFSET)]
      else kept
    score := s.score
    status := if bird.is_out_of_bounds then GameStatus.GameOver else GameStatus.Playing
    rng := if spawn then s.rng + 1 else s.rng }

/-- Method `GameState::update` (of the `EventHandler` impl): the `Playing` branch
does the per-frame work, the `GameOver` branch does nothing. -/
def GameState.update (oracle : ℕ → ℚ) (s : GameState) : GameState :=
  match s.status with
  | GameStatus.Playing => s.updatePlaying oracle
  | GameStatus.GameOver => s

/-- The keys handled by `GameState::key_down_event` (`_` arm collapsed to
`Other`). -/
inductive Key
  | Space
  | R
  | Other
deriving DecidableEq

/-- Method `GameState::key_down_event`: `Space` while `Playing` makes the bird
jump; `R` while `GameOver` rebuilds the whole state with
`GameState::new`; everything else is ignored. -/
def GameState.key_down_event (oracle : ℕ → ℚ) (s : GameState) (k : Key) : GameState :=
  match k with
  | Key.Space =>
      if s.status = GameStatus.Playing then { s with bird := s.bird.jump } else s
  | Key.R =>
      if s.status = GameStatus.GameOver then GameState.new oracle s.rng else s
  | Key.Other => s

/-- One observable event of the engine loop: either a frame tick
(`update`) or a key press (`key_down_event`). -/
inductive Event
  | tick
  | key (k : Key)

/-- Dispatch one event to the corresponding handler of the source. -/
def GameState.step (oracle : ℕ → ℚ) (s : GameState) : Event → GameState
  | Event.tick => s.update oracle
  | Event.key k => s.key_down_event oracle k

/-- Run a whole sequence of engine events from a given state. -/
def runEvents (oracle : ℕ → ℚ) (s : GameState) : List Event → GameState
  | [] => s
  | e :: es => runEvents oracle (s.step oracle e) es

/-- One frame of the concrete simulation used for concrete runs: an
optional `Space` key press followed by one `update` tick. -/
def frameStep (oracle : ℕ → ℚ) (jump : Bool) (s : GameState) : GameState :=
  (if jump then s.key_down_event oracle Key.Space else s).update oracle

/-- Run a concrete simulation and log the spawns: returns the final state
together with, for every frame on which the update consumed a random draw
(which in a run without `R` presses happens exactly when the lookahead
gate appended a pipe), the frame index and the creation x-coordinate of
the appended pipe (the last element of the new pipe list).  `t` is the
index of the next frame. -/
def runLogAux (oracle : ℕ → ℚ) : ℕ → GameState → List Bool → GameState × List (ℕ × ℚ)
  | _, s, [] => (s, [])
  | t, s, j :: js =>
      let s1 := frameStep oracle j s
      let pr := runLogAux oracle (t + 1) s1 js
      (pr.1,
        if s.rng < s1.rng then
          match s1.pipes.getLast? with
          | some p => (t, p.x) :: pr.2
          | none => pr.2
        else pr.2)

/-- Spawn log of a run starting at frame 1. -/
def spawnLog (oracle : ℕ → ℚ) (s : GameState) (inputs : List Bool) : List (ℕ × ℚ) :=
  (runLogAux oracle 1 s inputs).2

/-- A concrete gap oracle: every random draw returns 200 (inside
`[PIPE_MIN_GAP_Y, PIPE_MAX_GAP_Y)`). -/
def gapOracle : ℕ → ℚ := fun _ => 200

/-- One input cycle keeping the bird afloat: a `Space` press on the first
frame, then 38 plain ticks (over such a cycle the bird's y goes from 200
down to 105 and back to exactly 200). -/
def cycle : List Bool :=
  true :: List.replicate 38 false

/-- Concrete input schedule keeping the bird alive: 8 cycles, 312 frames;
the bird's y stays inside `[105, 200]` throughout. -/
def keepAliveInputs : List Bool :=
  (List.replicate 8 cycle).flatten

/-- Intermediate state of the `keepAliveInputs` run after 0 frames (the
fresh game, with the `gapOracle` gaps spelled out). -/
def cs0 : GameState :=
  { bird := { x := 100, y := 200, velocity := 0 }
    pipes := [{ x := 600, gap_y := 200 }, { x := 900, gap_y := 200 },
      { x := 1200, gap_y := 200 }]
    score := 0
    status := GameStatus.Playing
    rng := 3 }

/-- Intermediate state of the `keepAliveInputs` run after 39 frames. -/
def cs1 : GameState :=
  { bird := { x := 100, y := 200, velocity := 19/2 }
    pipes := [{ x := 405, gap_y := 200 }, { x := 705, gap_y := 200 },
      { x := 1005, gap_y := 200 }]
    score := 0
    status := GameStatus.Playing
    rng := 3 }

/-- Intermediate state of the `keepAliveInputs` run after 78 frames. -/
def cs2 : GameState :=
  { bird := { x := 100, y := 200, velocity := 19/2 }
    pipes := [{ x := 210, gap_y := 200 }, { x := 510, gap_y := 200 },
      { x := 810, gap_y := 200 }]
    score := 0
    status := GameStatus.Playing
    rng := 3 }

/-- Intermediate state of the `keepAliveInputs` run after 117 frames. -/
def cs3 : GameState :=
  { bird := { x := 100, y := 200, velocity := 19/2 }
    pipes := [{ x := 15, gap_y := 200 }, { x := 315, gap_y := 200 },
      { x := 615, gap_y := 200 }]
    score := 0
    status := GameStatus.Playing
    rng := 3 }

/-- Intermediate state of the `keepAliveInputs` run after 156 frames (the
pipe that started at x = 600 was purged on frame 141). -/
def cs4 : GameState :=
  { bird := { x := 100, y := 200, velocity := 19/2 }
    pipes := [{ x := 120, gap_y := 200 }, { x := 420, gap_y := 200 }]
    score := 0
    status := GameStatus.Playing
    rng := 3 }

/-- Intermediate state of the `keepAliveInputs` run after 195 frames (a
pipe spawned at x = 800 on frame 181). -/
def cs5 : GameState :=
  { bird := { x := 100, y := 200, velocity := 19/2 }
    pipes := [{ x := -75, gap_y := 200 }, { x := 225, gap_y := 200 },
      { x := 730, gap_y := 200 }]
    score := 0
    status := GameStatus.Playing
    rng := 4 }

/-- Intermediate state of the `keepAliveInputs` run after 234 frames (the
pipe that started at x = 900 was purged on frame 201). -/
def cs6 : GameState :=
  { bird := { x := 100, y := 200, velocity := 19/2 }
    pipes := [{ x := 30, gap_y := 200 }, { x := 535, gap_y := 200 }]
    score := 0
    status := GameStatus.Playing
    rng := 4 }

/-- Intermediate state of the `keepAliveInputs` run after 273 frames (the
pipe that started at x = 1200 was purged on frame 261). -/
def cs7 : GameState :=
  { bird := { x := 100, y := 200, velocity := 19/2 }
    pipes := [{ x := 340, gap_y := 200 }]
    score := 0
    status := GameStatus.Playing
    rng := 4 }

/-- Final state of the `keepAliveInputs` run after 312 frames (a second
pipe spawned at x = 800 on frame 282). -/
def cs8 : GameState :=
  { bird := { x := 100, y := 200, velocity := 19/2 }
    pipes := [{ x := 145, gap_y := 200 }, { x := 650, gap_y := 200 }]
    score := 0
    status := GameStatus.Playing
    rng := 5 }

/-- Invariant carried through every reachable state: the pipe list has a
last element and that pipe sits at or beyond the lookahead threshold
`SCREEN_WIDTH - PIPE_SPAWN_DISTANCE`. -/
def goodLastPipe (s : GameState) : Prop :=
  ∃ lp, s.pipes.getLast? = some lp ∧ SCREEN_WIDTH - PIPE_SPAWN_DISTANCE ≤ lp.x

/-- Concrete `Playing` state whose single pipe is about to trip the
lookahead spawn gate (its pipe moves from 295 to 290 < SCREEN_WIDTH -
PIPE_SPAWN_DISTANCE = 300 on the next update). -/
def spawnGateState : GameState :=
  { bird := Bird.new
    pipes := [{ x := 295, gap_y := 200 }]
    score := 0
    status := GameStatus.Playing
    rng := 3 }

/-- Concrete `Playing` state with one pipe about to scroll off screen
(from -98 to -103 < PIPE_OFF_SCREEN_X) and one pipe about to trip the
spawn gate. -/
def purgeState : GameState :=
  { bird := Bird.new
    pipes := [{ x := -98, gap_y := 150 }, { x := 295, gap_y := 200 }]
    score := 0
    status := GameStatus.Playing
    rng := 3 }

/-- Concrete `GameOver` state used to exercise the restart transition. -/
def overState : GameState :=
  { bird := { x := 100, y := 450, velocity := 12 }
    pipes := [{ x := 140, gap_y := 150 }]
    score := 0
    status := GameStatus.GameOver
    rng := 7 }

/-- Claim C3: one `Bird::update` adds `GRAVITY` to the velocity first and
then adds the new velocity to `y` (and leaves `x` alone); in particular a
bird at `(100, SCREEN_HEIGHT / 2)` with velocity 0 ends one update at
`(100, SCREEN_HEIGHT / 2 + 0.5)` with velocity `0.5`. -/
theorem C3_bird_update_integration (b : Bird) :
    (b.update.velocity = b.velocity + GRAVITY
      ∧ b.update.y = b.y + (b.velocity + GRAVITY)
      ∧ b.update.x = b.x)
    ∧ Bird.update { x := 100, y := SCREEN_HEIGHT / 2, velocity := 0 }
        = { x := 100, y := SCREEN_HEIGHT / 2 + 1/2, velocity := 1/2 } := by
  refine ⟨⟨rfl, rfl, rfl⟩, ?_⟩
  simp only [Bird.update, GRAVITY, SCREEN_HEIGHT, Bird.mk.injEq]
  norm_num

/-- Claim C5: `Bird::is_out_of_bounds` is true exactly when `y < 0` or
`y > SCREEN_HEIGHT` (it reads the bird through `&self`, so it cannot
mutate it); at `y = -0.01` and `y = SCREEN_HEIGHT + 0.01` it is true, at
`y = 0` and `y = SCREEN_HEIGHT` it is false. -/
theorem C5_out_of_bounds_boundary (b : Bird) :
    (b.is_out_of_bounds = true ↔ (b.y < 0 ∨ b.y > SCREEN_HEIGHT))
    ∧ Bird.is_out_of_bounds { x := 100, y := -1/100, velocity := 0 } = true
    ∧ Bird.is_out_of_bounds { x := 100, y := SCREEN_HEIGHT + 1/100, velocity := 0 } = true
    ∧ Bird.is_out_of_bounds { x := 100, y := 0, velocity := 0 } = false
    ∧ Bird.is_out_of_bounds { x := 100, y := SCREEN_HEIGHT, velocity := 0 } = false := by
  refine ⟨?_, ?_, ?_, ?_, ?_⟩ <;>
    simp only [Bird.is_out_of_bounds, SCREEN_HEIGHT, Bool.or_eq_true, decide_eq_true_eq,
      Bool.or_eq_false_iff, decide_eq_false_iff_not] <;>
    norm_num

/-- Claim C7: `Bird::jump` overwrites the velocity with `JUMP_FORCE`
whatever it was (so a second `jump` changes nothing), and a jump followed
by one `update` gives velocity `JUMP_FORCE + GRAVITY = -9.5` and lowers
`y` by `9.5` while keeping `x`. -/
theorem C7_jump_overwrites_velocity (b : Bird) :
    b.jump.velocity = JUMP_FORCE
    ∧ b.jump.jump = b.jump
    ∧ b.jump.update.velocity = JUMP_FORCE + GRAVITY
    ∧ JUMP_FORCE + GRAVITY = -19/2
    ∧ b.jump.update.y = b.y - 19/2
    ∧ b.jump.update.x = b.x := by
  refine ⟨rfl, rfl, rfl, by norm_num [JUMP_FORCE, GRAVITY], ?_, rfl⟩
  simp only [Bird.jump, Bird.update, JUMP_FORCE, GRAVITY]
  ring

/-- Claim C2: an `update` in the `Playing` state ends in `GameOver`
exactly when the bird, after this frame's physics step, is out of bounds;
no other condition (in particular nothing about pipes) produces the
transition. -/
theorem C2_gameover_iff_out_of_bounds (oracle : ℕ → ℚ) (s : GameState)
    (hs : s.status = GameStatus.Playing) :
    (s.update oracle).status = GameStatus.GameOver
      ↔ s.bird.update.is_out_of_bounds = true := by
  simp only [GameState.update, hs, GameState.updatePlaying]
  cases h : s.bird.update.is_out_of_bounds <;> simp [h]

/-- Witness for C2 at the freshly constructed state: its bird update ends
in bounds, so the update does not end the game. -/
theorem C2_gameover_iff_out_of_bounds_witness :
    ((GameState.new gapOracle 0).update gapOracle).status = GameStatus.GameOver
      ↔ (GameState.new gapOracle 0).bird.update.is_out_of_bounds = true :=
  C2_gameover_iff_out_of_bounds gapOracle (GameState.new gapOracle 0) rfl

/-- Claim C8: an `update` received while the status is `GameOver` returns
the state unchanged in every field (bird, pipes, score, status, rng). -/
theorem C8_gameover_update_is_noop (oracle : ℕ → ℚ) (s : GameState)
    (hs : s.status = GameStatus.GameOver) :
    s.update oracle = s := by
  simp only [GameState.update, hs]

/-- Witness for C8 at a concrete game-over state. -/
theorem C8_gameover_update_is_noop_witness :
    GameState.update gapOracle
        { bird := Bird.new, pipes := [], score := 0,
          status := GameStatus.GameOver, rng := 0 }
      = { bird := Bird.new, pipes := [], score := 0,
          status := GameStatus.GameOver, rng := 0 } :=
  C8_gameover_update_is_noop gapOracle _ rfl

/-- Helper: the `Playing` branch either keeps exactly the surviving pipes
(gate closed, no random draw) or appends one pipe created at
`SCREEN_WIDTH + PIPE_TOP_OFFSET` (gate open, one random draw). -/
theorem updatePlaying_pipes_cases (oracle : ℕ → ℚ) (s : GameState) :
    ((s.updatePlaying oracle).pipes = s.survivors
      ∧ (s.updatePlaying oracle).rng = s.rng)
    ∨ ((s.updatePlaying oracle).pipes
        = s.survivors ++ [Pipe.new oracle s.rng (SCREEN_WIDTH + PIPE_TOP_OFFSET)]
      ∧ (s.updatePlaying oracle).rng = s.rng + 1) := by
  unfold GameState.updatePlaying
  cases hl : s.survivors.getLast? with
  | none => left; simp [hl]
  | some lp =>
      by_cases hx : lp.x < SCREEN_WIDTH - PIPE_SPAWN_DISTANCE
      · right; simp [hl, hx]
      · left; simp [hl, hx]

/-- Helper: when the last surviving pipe is past the lookahead threshold,
the `Playing` branch appends exactly one pipe at
`SCREEN_WIDTH + PIPE_TOP_OFFSET`. -/
theorem updatePlaying_spawn_eq (oracle : ℕ → ℚ) (s : GameState) (lp : Pipe)
    (hl : s.survivors.getLast? = some lp)
    (hx : lp.x < SCREEN_WIDTH - PIPE_SPAWN_DISTANCE) :
    (s.updatePlaying oracle).pipes
      = s.survivors ++ [Pipe.new oracle s.rng (SCREEN_WIDTH + PIPE_TOP_OFFSET)] := by
  unfold GameState.updatePlaying
  simp [hl, hx]

/-- Helper: a pipe created at the respawn position is not off screen. -/
theorem new_pipe_not_off_screen (oracle : ℕ → ℚ) (k : ℕ) :
    (Pipe.new oracle k (SCREEN_WIDTH + PIPE_TOP_OFFSET)).is_off_screen = false := by
  norm_num [Pipe.new, Pipe.is_off_screen, SCREEN_WIDTH, PIPE_TOP_OFFSET, PIPE_OFF_SCREEN_X]

/-- Helper: no surviving pipe is off screen. -/
theorem survivors_filter_off_eq_nil (s : GameState) :
    s.survivors.filter (fun p => p.is_off_screen) = [] := by
  unfold GameState.survivors
  rw [List.filter_filter]
  simp

/-- Claim C1 (amended): whenever the lookahead gate fires (the last pipe
after the movement and retain steps has `x < SCREEN_WIDTH -
PIPE_SPAWN_DISTANCE`), the appended pipe is created at the fixed
x-coordinate `SCREEN_WIDTH + PIPE_TOP_OFFSET = 800`; every pipe spawned
by the rule is created at that same x, so consecutively spawned pipes
have spawn x-coordinates differing by 0, not by `PIPE_SPACING`. -/
theorem C1_lookahead_spawn_x_constant (oracle : ℕ → ℚ) (s : GameState)
    (hs : s.status = GameStatus.Playing) (lp : Pipe)
    (hl : s.survivors.getLast? = some lp)
    (hx : lp.x < SCREEN_WIDTH - PIPE_SPAWN_DISTANCE) :
    (s.update oracle).pipes
      = s.survivors ++ [Pipe.new oracle s.rng (SCREEN_WIDTH + PIPE_TOP_OFFSET)]
    ∧ (Pipe.new oracle s.rng (SCREEN_WIDTH + PIPE_TOP_OFFSET)).x = 800 := by
  constructor
  · have hu : s.update oracle = s.updatePlaying oracle := by
      simp only [GameState.update, hs]
    rw [hu]
    exact updatePlaying_spawn_eq oracle s lp hl hx
  · norm_num [Pipe.new, SCREEN_WIDTH, PIPE_TOP_OFFSET]

/-- Witness for C1 (amended) at `spawnGateState`. -/
theorem C1_lookahead_spawn_x_constant_witness :
    (GameState.update gapOracle spawnGateState).pipes
      = spawnGateState.survivors
          ++ [Pipe.new gapOracle spawnGateState.rng (SCREEN_WIDTH + PIPE_TOP_OFFSET)]
    ∧ (Pipe.new gapOracle spawnGateState.rng (SCREEN_WIDTH + PIPE_TOP_OFFSET)).x = 800 :=
  C1_lookahead_spawn_x_constant gapOracle spawnGateState rfl
    { x := 290, gap_y := 200 }
    (by norm_num [spawnGateState, GameState.survivors, Pipe.update, Pipe.is_off_screen,
      PIPE_SPEED, PIPE_OFF_SCREEN_X, List.filter])
    (by norm_num [SCREEN_WIDTH, PIPE_SPAWN_DISTANCE])

/-- Claim C4: pressing `R` while `GameOver` rebuilds the whole state with
`GameState::new`: score 0, status `Playing`, bird back at
`(BIRD_START_X, BIRD_START_Y)` with velocity 0, and again
`INITIAL_PIPE_COUNT` pipes at the initial x-positions
`SCREEN_WIDTH + i * PIPE_SPACING`. -/
theorem C4_restart_full_reset (oracle : ℕ → ℚ) (s : GameState)
    (hs : s.status = GameStatus.GameOver) :
    s.key_down_event oracle Key.R = GameState.new oracle s.rng
    ∧ (GameState.new oracle s.rng).score = 0
    ∧ (GameState.new oracle s.rng).status = GameStatus.Playing
    ∧ (GameState.new oracle s.rng).bird
        = { x := BIRD_START_X, y := BIRD_START_Y, velocity := 0 }
    ∧ (GameState.new oracle s.rng).pipes.length = INITIAL_PIPE_COUNT
    ∧ (GameState.new oracle s.rng).pipes.map Pipe.x
        = [SCREEN_WIDTH, SCREEN_WIDTH + PIPE_SPACING, SCREEN_WIDTH + 2 * PIPE_SPACING] := by
  refine ⟨?_, rfl, rfl, rfl, rfl, ?_⟩
  · simp only [GameState.key_down_event, hs, if_pos]
  · simp only [GameState.new, INITIAL_PIPE_COUNT, Pipe.new, List.range_succ,
      List.range_zero, List.nil_append, List.cons_append, List.map_cons, List.map_nil]
    norm_num

/-- Witness for C4 at `overState`. -/
theorem C4_restart_full_reset_witness :
    GameState.key_down_event gapOracle overState Key.R = GameState.new gapOracle overState.rng
    ∧ (GameState.new gapOracle overState.rng).score = 0
    ∧ (GameState.new gapOracle overState.rng).status = GameStatus.Playing
    ∧ (GameState.new gapOracle overState.rng).bird
        = { x := BIRD_START_X, y := BIRD_START_Y, velocity := 0 }
    ∧ (GameState.new gapOracle overState.rng).pipes.length = INITIAL_PIPE_COUNT
    ∧ (GameState.new gapOracle overState.rng).pipes.map Pipe.x
        = [SCREEN_WIDTH, SCREEN_WIDTH + PIPE_SPACING, SCREEN_WIDTH + 2 * PIPE_SPACING] :=
  C4_restart_full_reset gapOracle overState rfl

/-- Claim C6: right after an update in the `Playing` state no pipe of the
sequence is off screen (every pipe that crossed `PIPE_OFF_SCREEN_X` this
tick was retained away in the same tick), and the new sequence is the
surviving pipes in their original relative order (`survivors` is a
sublist of the moved pipes), possibly extended by the one spawned
pipe. -/
theorem C6_offscreen_pipes_purged (oracle : ℕ → ℚ) (s : GameState)
    (hs : s.status = GameStatus.Playing) :
    (s.update oracle).pipes.filter (fun p => p.is_off_screen) = []
    ∧ ((s.update oracle).pipes = s.survivors
        ∨ (s.update oracle).pipes
            = s.survivors ++ [Pipe.new oracle s.rng (SCREEN_WIDTH + PIPE_TOP_OFFSET)])
    ∧ s.survivors.Sublist (s.pipes.map Pipe.update) := by
  have hu : s.update oracle = s.updatePlaying oracle := by
    simp only [GameState.update, hs]
  have hcases := updatePlaying_pipes_cases oracle s
  rw [hu]
  rcases hcases with ⟨hp, _⟩ | ⟨hp, _⟩
  · refine ⟨?_, Or.inl hp, List.filter_sublist _⟩
    rw [hp]; exact survivors_filter_off_eq_nil s
  · refine ⟨?_, Or.inr hp, List.filter_sublist _⟩
    rw [hp, List.filter_append, survivors_filter_off_eq_nil s]
    simp [new_pipe_not_off_screen]

/-- Helper: `getLast?` ignores a new head when the tail is nonempty. -/
theorem getLast?_cons_some {α : Type} (x a : α) (t : List α)
    (h : t.getLast? = some a) : (x :: t).getLast? = some a := by
  cases t with
  | nil => simp at h
  | cons b u => simpa using h

/-- Helper: `getLast?` of a list extended on the right by one element. -/
theorem getLast?_append_single {α : Type} (l : List α) (a : α) :
    (l ++ [a]).getLast? = some a := by
  induction l with
  | nil => rfl
  | cons x t ih => exact getLast?_cons_some x a (t ++ [a]) ih

/-- Helper: `getLast?` commutes with `map`. -/
theorem getLast?_map_eq {α β : Type} (f : α → β) (l : List α) :
    (l.map f).getLast? = (l.getLast?).map f := by
  induction l with
  | nil => rfl
  | cons a t ih =>
      cases t with
      | nil => rfl
      | cons b u => simpa using ih

/-- Helper: filtering keeps the last element when it satisfies the
predicate. -/
theorem getLast?_filter_eq {α : Type} (p : α → Bool) (l : List α) (a : α)
    (hl : l.getLast? = some a) (hp : p a = true) :
    (l.filter p).getLast? = some a := by
  induction l with
  | nil => simp at hl
  | cons x t ih =>
      cases t with
      | nil =>
          simp only [List.getLast?_singleton, Option.some.injEq] at hl
          subst hl
          simp [List.filter, hp]
      | cons b u =>
          have hl2 : (b :: u).getLast? = some a := by simpa using hl
          have ih2 := ih hl2
          cases hpx : p x
          · simpa [List.filter_cons, hpx] using ih2
          · simpa [List.filter_cons, hpx] using
              getLast?_cons_some x a ((b :: u).filter p) ih2

/-- Helper: like `updatePlaying_pipes_cases` but remembering that the
gate was closed in the no-spawn branch. -/
theorem updatePlaying_pipes_last (oracle : ℕ → ℚ) (s : GameState) (lp : Pipe)
    (hl : s.survivors.getLast? = some lp) :
    ((s.updatePlaying oracle).pipes = s.survivors
      ∧ ¬ lp.x < SCREEN_WIDTH - PIPE_SPAWN_DISTANCE)
    ∨ (s.updatePlaying oracle).pipes
        = s.survivors ++ [Pipe.new oracle s.rng (SCREEN_WIDTH + PIPE_TOP_OFFSET)] := by
  unfold GameState.updatePlaying
  by_cases hx : lp.x < SCREEN_WIDTH - PIPE_SPAWN_DISTANCE
  · right; simp [hl, hx]
  · left; exact ⟨by simp [hl, hx], hx⟩

/-- Helper: the last pipe of a `goodLastPipe` state survives the movement
and retain steps and stays last. -/
theorem survivors_getLast?_of_good (s : GameState) (lp : Pipe)
    (hl : s.pipes.getLast? = some lp)
    (hx : SCREEN_WIDTH - PIPE_SPAWN_DISTANCE ≤ lp.x) :
    s.survivors.getLast? = some (Pipe.update lp) := by
  have hmap : (s.pipes.map Pipe.update).getLast? = some (Pipe.update lp) := by
    rw [getLast?_map_eq, hl]; rfl
  refine getLast?_filter_eq _ _ _ hmap ?_
  have hxq : ¬ (Pipe.update lp).x < PIPE_OFF_SCREEN_X := by
    simp only [Pipe.update]
    norm_num [SCREEN_WIDTH, PIPE_SPAWN_DISTANCE] at hx
    norm_num [PIPE_SPEED, PIPE_OFF_SCREEN_X]
    linarith
  simp [Pipe.is_off_screen, hxq]

/-- Helper: one engine event preserves `goodLastPipe`. -/
theorem goodLastPipe_step (oracle : ℕ → ℚ) (s : GameState) (e : Event)
    (h : goodLastPipe s) : goodLastPipe (s.step oracle e) := by
  obtain ⟨lp, hl, hx⟩ := h
  cases e with
  | tick =>
      cases hs : s.status with
      | GameOver =>
          exact ⟨lp, by simpa [GameState.step, GameState.update, hs] using hl, hx⟩
      | Playing =>
          have hstep : s.step oracle Event.tick = s.updatePlaying oracle := by
            simp [GameState.step, GameState.update, hs]
          rw [hstep]
          have hsurv := survivors_getLast?_of_good s lp hl hx
          rcases updatePlaying_pipes_last oracle s (Pipe.update lp) hsurv with
            ⟨hp, hgate⟩ | hp
          · exact ⟨Pipe.update lp, by rw [hp]; exact hsurv, not_lt.mp hgate⟩
          · refine ⟨Pipe.new oracle s.rng (SCREEN_WIDTH + PIPE_TOP_OFFSET), ?_, ?_⟩
            · rw [hp]; exact getLast?_append_single _ _
            · norm_num [Pipe.new, SCREEN_WIDTH, PIPE_TOP_OFFSET, PIPE_SPAWN_DISTANCE]
  | key k =>
      cases k with
      | Space =>
          refine ⟨lp, ?_, hx⟩
          simp only [GameState.step, GameState.key_down_event]
          split <;> simpa using hl
      | R =>
          simp only [GameState.step, GameState.key_down_event]
          split
          · refine ⟨Pipe.new oracle (s.rng + 2) (SCREEN_WIDTH + 2 * PIPE_SPACING), ?_, ?_⟩
            · simp [GameState.new, INITIAL_PIPE_COUNT, List.range_succ, List.getLast?]
            · norm_num [Pipe.new, SCREEN_WIDTH, PIPE_SPACING, PIPE_SPAWN_DISTANCE]
          · exact ⟨lp, hl, hx⟩
      | Other => exact ⟨lp, hl, hx⟩

/-- Helper: any event sequence preserves `goodLastPipe`. -/
theorem goodLastPipe_run (oracle : ℕ → ℚ) (s : GameState) (events : List Event)
    (h : goodLastPipe s) : goodLastPipe (runEvents oracle s events) := by
  induction events generalizing s with
  | nil => exact h
  | cons e es ih => exact ih _ (goodLastPipe_step oracle s e h)

/-- Helper: a fresh game satisfies `goodLastPipe` (its last pipe starts at
`SCREEN_WIDTH + 2 * PIPE_SPACING = 1200`). -/
theorem goodLastPipe_new (oracle : ℕ → ℚ) (rng0 : ℕ) :
    goodLastPipe (GameState.new oracle rng0) := by
  refine ⟨Pipe.new oracle (rng0 + 2) (SCREEN_WIDTH + 2 * PIPE_SPACING), ?_, ?_⟩
  · simp [GameState.new, INITIAL_PIPE_COUNT, List.range_succ, List.getLast?]
  · norm_num [Pipe.new, SCREEN_WIDTH, PIPE_SPACING, PIPE_SPAWN_DISTANCE]

/-- Helper: every step preserves `score = 0`. -/
theorem score_step_zero (oracle : ℕ → ℚ) (s : GameState) (e : Event)
    (h : s.score = 0) : (s.step oracle e).score = 0 := by
  cases e with
  | tick =>
      cases hs : s.status with
      | Playing =>
          simp only [GameState.step, GameState.update, hs, GameState.updatePlaying]
          exact h
      | GameOver => simpa [GameState.step, GameState.update, hs] using h
  | key k =>
      cases k with
      | Space =>
          simp only [GameState.step, GameState.key_down_event]
          split <;> simpa using h
      | R =>
          simp only [GameState.step, GameState.key_down_event]
          split
          · rfl
          · exact h
      | Other => exact h

/-- Helper: any event sequence preserves `score = 0`. -/
theorem score_run_zero (oracle : ℕ → ℚ) (s : GameState) (events : List Event)
    (h : s.score = 0) : (runEvents oracle s events).score = 0 := by
  induction events generalizing s with
  | nil => exact h
  | cons e es ih => exact ih _ (score_step_zero oracle s e h)

/-- Claim C9: in every state reachable from a fresh game by any sequence
of frame ticks and key presses the score is still 0: no code path ever
writes the score field after initialization. -/
theorem C9_score_stays_zero (oracle : ℕ → ℚ) (rng0 : ℕ) (events : List Event) :
    (runEvents oracle (GameState.new oracle rng0) events).score = 0 :=
  score_run_zero oracle (GameState.new oracle rng0) events rfl

/-- Claim C10: in every state reachable from a fresh game the pipe list is
nonempty and its last pipe sits strictly right of the off-screen removal
threshold, so the retain step never empties the list and the spawn gate
always has a last element to inspect. -/
theorem C10_pipes_never_empty (oracle : ℕ → ℚ) (rng0 : ℕ) (events : List Event) :
    (runEvents oracle (GameState.new oracle rng0) events).pipes ≠ []
    ∧ ∃ lp, (runEvents oracle (GameState.new oracle rng0) events).pipes.getLast? = some lp
        ∧ lp.x > PIPE_OFF_SCREEN_X := by
  obtain ⟨lp, hl, hx⟩ :=
    goodLastPipe_run oracle (GameState.new oracle rng0) events
      (goodLastPipe_new oracle rng0)
  constructor
  · intro hnil
    rw [hnil] at hl
    simp at hl
  · refine ⟨lp, hl, ?_⟩
    norm_num [SCREEN_WIDTH, PIPE_SPAWN_DISTANCE] at hx
    norm_num [PIPE_OFF_SCREEN_X]
    linarith

/-- Witness for C6 at `purgeState` (one pipe crosses the threshold and is
purged, one pipe trips the spawn gate). -/
theorem C6_offscreen_pipes_purged_witness :
    (GameState.update gapOracle purgeState).pipes.filter (fun p => p.is_off_screen) = []
    ∧ ((GameState.update gapOracle purgeState).pipes = purgeState.survivors
        ∨ (GameState.update gapOracle purgeState).pipes
            = purgeState.survivors
                ++ [Pipe.new gapOracle purgeState.rng (SCREEN_WIDTH + PIPE_TOP_OFFSET)])
    ∧ purgeState.survivors.Sublist (purgeState.pipes.map Pipe.update) :=
  C6_offscreen_pipes_purged gapOracle purgeState rfl

set_option maxRecDepth 40000

set_option maxHeartbeats 4000000

/-- Helper: a logged run over a concatenation is the run over the first
part followed by the run over the second part from where the first
stopped, with the two logs concatenated. -/
theorem runLogAux_append (oracle : ℕ → ℚ) (t : ℕ) (s : GameState) (l1 l2 : List Bool) :
    runLogAux oracle t s (l1 ++ l2)
      = ((runLogAux oracle (t + l1.length) (runLogAux oracle t s l1).1 l2).1,
        (runLogAux oracle t s l1).2
          ++ (runLogAux oracle (t + l1.length) (runLogAux oracle t s l1).1 l2).2) := by
  induction l1 generalizing t s with
  | nil => simp [runLogAux]
  | cons j js ih =>
      simp only [List.cons_append, runLogAux, List.append_eq, ih, List.length_cons]
      have hidx : t + (js.length + 1) = t + 1 + js.length := by omega
      rw [hidx, Prod.mk.injEq]
      refine ⟨rfl, ?_⟩
      split
      · split <;> simp
      · simp

/-- Helper: frames 1 to 39 of the `keepAliveInputs` run. -/
theorem runChunk0 : runLogAux gapOracle 1 cs0 cycle = (cs1, []) := by
  norm_num [runLogAux, frameStep, cycle, List.replicate, cs0, cs1,
    GameState.update, GameState.updatePlaying, GameState.key_down_event,
    GameState.survivors, GameState.step, Bird.update, Bird.jump,
    Bird.is_out_of_bounds, Pipe.new, Pipe.update, Pipe.is_off_screen,
    gapOracle, GRAVITY, JUMP_FORCE, PIPE_SPEED, SCREEN_WIDTH, SCREEN_HEIGHT,
    PIPE_SPAWN_DISTANCE, PIPE_OFF_SCREEN_X, PIPE_TOP_OFFSET, List.getLast?]

/-- Helper: frames 40 to 78 of the `keepAliveInputs` run. -/
theorem runChunk1 : runLogAux gapOracle 40 cs1 cycle = (cs2, []) := by
  norm_num [runLogAux, frameStep, cycle, List.replicate, cs1, cs2,
    GameState.update, GameState.updatePlaying, GameState.key_down_event,
    GameState.survivors, GameState.step, Bird.update, Bird.jump,
    Bird.is_out_of_bounds, Pipe.new, Pipe.update, Pipe.is_off_screen,
    gapOracle, GRAVITY, JUMP_FORCE, PIPE_SPEED, SCREEN_WIDTH, SCREEN_HEIGHT,
    PIPE_SPAWN_DISTANCE, PIPE_OFF_SCREEN_X, PIPE_TOP_OFFSET, List.getLast?]

/-- Helper: frames 79 to 117 of the `keepAliveInputs` run. -/
theorem runChunk2 : runLogAux gapOracle 79 cs2 cycle = (cs3, []) := by
  norm_num [runLogAux, frameStep, cycle, List.replicate, cs2, cs3,
    GameState.update, GameState.updatePlaying, GameState.key_down_event,
    GameState.survivors, GameState.step, Bird.update, Bird.jump,
    Bird.is_out_of_bounds, Pipe.new, Pipe.update, Pipe.is_off_screen,
    gapOracle, GRAVITY, JUMP_FORCE, PIPE_SPEED, SCREEN_WIDTH, SCREEN_HEIGHT,
    PIPE_SPAWN_DISTANCE, PIPE_OFF_SCREEN_X, PIPE_TOP_OFFSET, List.getLast?]

/-- Helper: frames 118 to 156 of the `keepAliveInputs` run (the pipe that
started at x = 600 crosses the off-screen threshold on frame 141 and is
purged). -/
theorem runChunk3 : runLogAux gapOracle 118 cs3 cycle = (cs4, []) := by
  norm_num [runLogAux, frameStep, cycle, List.replicate, cs3, cs4,
    GameState.update, GameState.updatePlaying, GameState.key_down_event,
    GameState.survivors, GameState.step, Bird.update, Bird.jump,
    Bird.is_out_of_bounds, Pipe.new, Pipe.update, Pipe.is_off_screen,
    gapOracle, GRAVITY, JUMP_FORCE, PIPE_SPEED, SCREEN_WIDTH, SCREEN_HEIGHT,
    PIPE_SPAWN_DISTANCE, PIPE_OFF_SCREEN_X, PIPE_TOP_OFFSET, List.getLast?]

/-- Helper: frames 157 to 195 of the `keepAliveInputs` run; on frame 181
the lookahead gate fires for the first time and logs a pipe created at
x = 800. -/
theorem runChunk4 : runLogAux gapOracle 157 cs4 cycle = (cs5, [(181, 800)]) := by
  norm_num [runLogAux, frameStep, cycle, List.replicate, cs4, cs5,
    GameState.update, GameState.updatePlaying, GameState.key_down_event,
    GameState.survivors, GameState.step, Bird.update, Bird.jump,
    Bird.is_out_of_bounds, Pipe.new, Pipe.update, Pipe.is_off_screen,
    gapOracle, GRAVITY, JUMP_FORCE, PIPE_SPEED, SCREEN_WIDTH, SCREEN_HEIGHT,
    PIPE_SPAWN_DISTANCE, PIPE_OFF_SCREEN_X, PIPE_TOP_OFFSET, List.getLast?]

/-- Helper: frames 196 to 234 of the `keepAliveInputs` run (the pipe that
started at x = 900 is purged on frame 201). -/
theorem runChunk5 : runLogAux gapOracle 196 cs5 cycle = (cs6, []) := by
  norm_num [runLogAux, frameStep, cycle, List.replicate, cs5, cs6,
    GameState.update, GameState.updatePlaying, GameState.key_down_event,
    GameState.survivors, GameState.step, Bird.update, Bird.jump,
    Bird.is_out_of_bounds, Pipe.new, Pipe.update, Pipe.is_off_screen,
    gapOracle, GRAVITY, JUMP_FORCE, PIPE_SPEED, SCREEN_WIDTH, SCREEN_HEIGHT,
    PIPE_SPAWN_DISTANCE, PIPE_OFF_SCREEN_X, PIPE_TOP_OFFSET, List.getLast?]

/-- Helper: frames 235 to 273 of the `keepAliveInputs` run (the pipe that
started at x = 1200 is purged on frame 261). -/
theorem runChunk6 : runLogAux gapOracle 235 cs6 cycle = (cs7, []) := by
  norm_num [runLogAux, frameStep, cycle, List.replicate, cs6, cs7,
    GameState.update, GameState.updatePlaying, GameState.key_down_event,
    GameState.survivors, GameState.step, Bird.update, Bird.jump,
    Bird.is_out_of_bounds, Pipe.new, Pipe.update, Pipe.is_off_screen,
    gapOracle, GRAVITY, JUMP_FORCE, PIPE_SPEED, SCREEN_WIDTH, SCREEN_HEIGHT,
    PIPE_SPAWN_DISTANCE, PIPE_OFF_SCREEN_X, PIPE_TOP_OFFSET, List.getLast?]

/-- Helper: frames 274 to 312 of the `keepAliveInputs` run; on frame 282
the lookahead gate fires for the second time and again logs a pipe
created at x = 800. -/
theorem runChunk7 : runLogAux gapOracle 274 cs7 cycle = (cs8, [(282, 800)]) := by
  norm_num [runLogAux, frameStep, cycle, List.replicate, cs7, cs8,
    GameState.update, GameState.updatePlaying, GameState.key_down_event,
    GameState.survivors, GameState.step, Bird.update, Bird.jump,
    Bird.is_out_of_bounds, Pipe.new, Pipe.update, Pipe.is_off_screen,
    gapOracle, GRAVITY, JUMP_FORCE, PIPE_SPEED, SCREEN_WIDTH, SCREEN_HEIGHT,
    PIPE_SPAWN_DISTANCE, PIPE_OFF_SCREEN_X, PIPE_TOP_OFFSET, List.getLast?]

/-- Claim C1 (counterexample): running the game from a fresh state under
the concrete jump schedule `keepAliveInputs`, the lookahead rule spawns
its first two pipes on frames 181 and 282, both created at the same
x-coordinate 800, so this pair of consecutively spawned pipes has spawn
x-coordinates differing by `800 - 800 = 0`, not by `PIPE_SPACING`. -/
theorem C1_spawn_spacing_counterexample :
    spawnLog gapOracle (GameState.new gapOracle 0) keepAliveInputs
      = [(181, 800), (282, 800)]
    ∧ (800 : ℚ) - 800 ≠ PIPE_SPACING := by
  have hnew : GameState.new gapOracle 0 = cs0 := by
    norm_num [GameState.new, cs0, Pipe.new, gapOracle, INITIAL_PIPE_COUNT,
      SCREEN_WIDTH, PIPE_SPACING, List.range_succ, Bird.new, BIRD_START_X,
      BIRD_START_Y, SCREEN_HEIGHT]
  have hin : keepAliveInputs
      = cycle ++ (cycle ++ (cycle ++ (cycle ++ (cycle ++ (cycle ++ (cycle ++ cycle)))))) :=
    rfl
  have hclen : cycle.length = 39 := rfl
  constructor
  · rw [spawnLog, hnew, hin]
    norm_num [runLogAux_append, hclen, runChunk0, runChunk1, runChunk2,
      runChunk3, runChunk4, runChunk5, runChunk6, runChunk7]
  · norm_num [PIPE_SPACING]

end FlappyBird
